import Mathlib

/-!
Shallow embedding of the SpotifyAgent client core (retry/backoff utility,
transport error classifier, OAuth token lifecycle, paginated and batched
catalog operations), together with theorems settling the specification
claims about it.

Conventions of the embedding:
* machine time is an `Int` of milliseconds since the epoch (`Date.now()`);
* asynchronous operations are modelled by their outcome (`Except`), with a
  per-attempt outcome function where the operation is retried;
* JavaScript truthiness of a string (`s ? a : b`, `s || d`) is modelled
  explicitly: the empty string is falsy, an absent value is falsy.
-/

namespace SpotifyAgent

/-! ## Retry utility (src/utils/retry.ts) -/

/-- Retry policy `{maxRetries, baseDelay, maxDelay, backoffFactor}`
(`RetryOptions` with all defaults filled in). -/
structure RetryOptions where
  maxRetries : Nat
  baseDelay : Nat
  maxDelay : Nat
  backoffFactor : Nat
  deriving Repr, DecidableEq

/-- The default policy `{3, 1000, 10000, 2}`. -/
def defaultRetryOptions : RetryOptions :=
  { maxRetries := 3, baseDelay := 1000, maxDelay := 10000, backoffFactor := 2 }

/-- `Math.min(baseDelay * Math.pow(backoffFactor, attempt), maxDelay)`. -/
def retryDelay (p : RetryOptions) (attempt : Nat) : Nat :=
  min (p.baseDelay * p.backoffFactor ^ attempt) p.maxDelay

/-- Observable trace of one `retryWithBackoff` run: the final outcome, how
many times the operation was attempted, and the list of waits performed
(in milliseconds, in order). -/
structure RetryTrace (E A : Type) where
  result : Except E A
  attempts : Nat
  delays : List Nat
  deriving Repr

/-- Loop body of `retryWithBackoff`. The source iterates
`for (attempt = 0; attempt <= maxRetries; attempt++)`; `fuel` is the number
of retries still allowed, so `fuel = 0` is exactly the source's break
condition `attempt === maxRetries`. `op i` is the outcome of the zero-based
attempt `i`. -/
def retryGo (E A : Type) (op : Nat → Except E A) (p : RetryOptions) :
    Nat → Nat → RetryTrace E A
  | attempt, 0 =>
    match op attempt with
    | .ok a => { result := .ok a, attempts := 1, delays := [] }
    | .error e => { result := .error e, attempts := 1, delays := [] }
  | attempt, fuel' + 1 =>
    match op attempt with
    | .ok a => { result := .ok a, attempts := 1, delays := [] }
    | .error _ =>
      let t := retryGo E A op p (attempt + 1) fuel'
      { result := t.result, attempts := t.attempts + 1,
        delays := retryDelay p attempt :: t.delays }

/-- `retryWithBackoff(operation, options)`: the whole run starts at attempt
index 0 with `maxRetries` retries left. -/
def retryWithBackoff (E A : Type) (op : Nat → Except E A) (p : RetryOptions) :
    RetryTrace E A :=
  retryGo E A op p 0 p.maxRetries

/-! ## Chunking (the batching loops of getTrackDetails / addTracksToPlaylist)

Both methods run `for (let i = 0; i < xs.length; i += k) batches.push(xs.slice(i, i + k))`,
i.e. they split the list into consecutive chunks of size `k` (the last one
possibly shorter). -/

/-- Split a list into consecutive chunks of at most `k` elements
(`k ≥ 1` at every call site: 50 for track details, 100 for playlist adds). -/
def chunksOf (k : Nat) : List α → List (List α)
  | [] => []
  | x :: xs => ((x :: xs).take k) :: chunksOf k (xs.drop (k - 1))
termination_by xs => xs.length
decreasing_by
  simp only [List.length_cons]
  have : (xs.drop (k - 1)).length ≤ xs.length := by
    simp
  omega

/-! ## JavaScript string truthiness and parsing helpers -/

/-- `o || d` for an optional string: JavaScript `||` treats both an absent
value and the empty string as falsy. -/
def jsOrString (o : Option String) (d : String) : String :=
  match o with
  | some s => if s = "" then d else s
  | none => d

/-- Maximal leading run of decimal digits, as a number; `none` when the run
is empty (the `NaN` case of `parseInt`). -/
def leadingDigits (cs : List Char) : Option Nat :=
  match cs.takeWhile (·.isDigit) with
  | [] => none
  | ds => some (ds.foldl (fun a c => a * 10 + (c.toNat - 48)) 0)

/-- JavaScript `parseInt(s, 10)`: skip leading whitespace, accept an
optional sign, then read the maximal digit run; `none` models `NaN`. -/
def jsParseInt (s : String) : Option Int :=
  match s.toList.dropWhile (fun c => c.isWhitespace) with
  | '-' :: rest => (leadingDigits rest).map (fun n => -(n : Int))
  | '+' :: rest => (leadingDigits rest).map (fun n => (n : Int))
  | cs => (leadingDigits cs).map (fun n => (n : Int))

/-! ## Error classifier (the response interceptor in the client constructor,
with the error classes of src/utils/errors.ts) -/

/-- The body (`data`) of a failed response; `errorMessage` is
`data?.error?.message` when that path exists. The structure itself stands
for the raw body carried into `SpotifyAPIError`. -/
structure ResponseBody where
  errorMessage : Option String
  deriving Repr, DecidableEq

/-- A failed transport outcome as axios presents it to the response
interceptor: either a response arrived (status, body, `retry-after` header),
or the request was sent but no response arrived (`error.request`), or the
failure happened before sending (`error.message` only). -/
inductive TransportOutcome where
  | response (status : Nat) (data : ResponseBody) (retryAfter : Option String)
  | request (cause : String)
  | setup (message : String)
  deriving Repr, DecidableEq

/-- The typed failures the interceptor can raise: `AuthenticationError`,
`RateLimitError` (with its optional `retryAfter` seconds),
`SpotifyAPIError` (message, status, raw body), `NetworkError` (wrapping the
underlying cause), or a plain `Error`. -/
inductive ClassifiedError where
  | authenticationError (message : String)
  | rateLimitError (message : String) (retryAfter : Option Int)
  | spotifyAPIError (message : String) (status : Nat) (response : ResponseBody)
  | networkError (message : String) (cause : String)
  | genericError (message : String)
  deriving Repr, DecidableEq

/-- The response interceptor's error branch. For 429 the source computes
`retryAfter ? parseInt(retryAfter, 10) : undefined`: an absent or empty
header yields no hint; a non-empty header is parsed (we fold `parseInt`'s
`NaN` into the no-hint case, which agrees with the source on every header
that parses). -/
def classifyError : TransportOutcome → ClassifiedError
  | .response status data retryAfter =>
    if status = 401 then
      .authenticationError "Invalid or expired token"
    else if status = 429 then
      .rateLimitError "Rate limit exceeded"
        (match retryAfter with
         | some s => if s = "" then none else jsParseInt s
         | none => none)
    else
      .spotifyAPIError (jsOrString data.errorMessage "Spotify API error") status data
  | .request cause => .networkError "Network error" cause
  | .setup message => .genericError message

/-! ## Token state (src/models/auth.ts, SpotifyClient.tokens) -/

/-- The stored credential snapshot (`AuthTokens`). `expires_at` is an
absolute instant in milliseconds. `refresh_token` is optional at runtime
(a restored snapshot may lack it), matching the source's falsiness check
`!this.tokens?.refresh_token`. -/
structure AuthTokens where
  access_token : String
  refresh_token : Option String
  token_type : String
  expires_in : Int
  scope : String
  expires_at : Int
  deriving Repr, DecidableEq

/-- JavaScript truthiness of an optional string: present and non-empty. -/
def truthyString (o : Option String) : Bool :=
  match o with
  | none => false
  | some s => s ≠ ""

/-- JavaScript truthiness of `tokens?.refresh_token`: present and
non-empty. -/
def hasRefreshToken (tokens : Option AuthTokens) : Bool :=
  match tokens with
  | none => false
  | some t => truthyString t.refresh_token

/-- `isAuthenticated()`: `this.tokens !== null`. -/
def isAuthenticated (tokens : Option AuthTokens) : Bool :=
  tokens.isSome

/-! ## Session manager (exchangeCodeForToken / refreshAccessToken /
ensureValidToken) -/

/-- A successful token-endpoint response for the authorization-code grant:
`{access_token, refresh_token, expires_in, token_type, scope}`. -/
structure TokenResponse where
  access_token : String
  refresh_token : String
  token_type : String
  expires_in : Int
  scope : String
  deriving Repr, DecidableEq

/-- A successful token-endpoint response for the refresh grant
(`TokenRefreshResponse`: no refresh token field). -/
structure TokenRefreshResponse where
  access_token : String
  token_type : String
  expires_in : Int
  scope : String
  deriving Repr, DecidableEq

/-- How a token-endpoint call can fail: an axios error (whose
`response?.data?.error_description` may be present), or some other thrown
value. -/
inductive TokenCallFailure where
  | axiosError (errorDescription : Option String)
  | other (message : String)
  deriving Repr, DecidableEq

/-- Errors surfaced by the session-manager methods. -/
inductive SessionError where
  | authenticationError (message : String)
  | other (message : String)
  deriving Repr, DecidableEq

/-- Result of a session-manager call: the returned value or raised error,
the token state afterwards, and how many network calls were made. -/
structure SessionOutcome (A : Type) where
  result : Except SessionError A
  tokens : Option AuthTokens
  networkCalls : Nat
  deriving Repr

/-- `exchangeCodeForToken(code)`, as a function of the current token state,
the current time `now` (ms), and the outcome of the POST to the token
endpoint. On success the snapshot is `{...tokenData, expires_at: new
Date(Date.now() + tokenData.expires_in * 1000)}` and is stored; on an axios
failure an `AuthenticationError` with the server's `error_description` (or
"Token exchange failed") is raised and the state is untouched. -/
def exchangeCodeForToken (tokens : Option AuthTokens) (now : Int)
    (post : Except TokenCallFailure TokenResponse) : SessionOutcome AuthTokens :=
  match post with
  | .ok td =>
    let snapshot : AuthTokens :=
      { access_token := td.access_token
        refresh_token := some td.refresh_token
        token_type := td.token_type
        expires_in := td.expires_in
        scope := td.scope
        expires_at := now + td.expires_in * 1000 }
    { result := .ok snapshot, tokens := some snapshot, networkCalls := 1 }
  | .error (.axiosError d) =>
    { result := .error (.authenticationError (jsOrString d "Token exchange failed"))
      tokens := tokens, networkCalls := 1 }
  | .error (.other m) =>
    { result := .error (.other m), tokens := tokens, networkCalls := 1 }

/-- `refreshAccessToken()`. Without a (truthy) stored refresh token it
raises `AuthenticationError("No refresh token available")` before any
network call. Otherwise the POST result is merged in place:
`this.tokens = {...this.tokens, access_token, expires_at}`. -/
def refreshAccessToken (tokens : Option AuthTokens) (now : Int)
    (post : Except TokenCallFailure TokenRefreshResponse) : SessionOutcome String :=
  match tokens with
  | some t =>
    if truthyString t.refresh_token then
      match post with
      | .ok td =>
        let updated : AuthTokens :=
          { t with access_token := td.access_token
                   expires_at := now + td.expires_in * 1000 }
        { result := .ok updated.access_token, tokens := some updated, networkCalls := 1 }
      | .error (.axiosError d) =>
        { result := .error (.authenticationError (jsOrString d "Token refresh failed"))
          tokens := tokens, networkCalls := 1 }
      | .error (.other m) =>
        { result := .error (.other m), tokens := tokens, networkCalls := 1 }
    else
      { result := .error (.authenticationError "No refresh token available")
        tokens := tokens, networkCalls := 0 }
  | none =>
    { result := .error (.authenticationError "No refresh token available")
      tokens := tokens, networkCalls := 0 }

/-- What `ensureValidToken()` does: raise, refresh once, or return at
once. -/
inductive EnsureAction where
  | fail (e : SessionError)
  | refreshOnce
  | noRefresh
  deriving Repr, DecidableEq

/-- `ensureValidToken()`: no snapshot raises
`AuthenticationError("Not authenticated")`; otherwise refresh exactly when
`expires_at <= Date.now() + 5 * 60 * 1000` (inclusive). -/
def ensureValidToken (tokens : Option AuthTokens) (now : Int) : EnsureAction :=
  match tokens with
  | none => .fail (.authenticationError "Not authenticated")
  | some t =>
    if t.expires_at ≤ now + 5 * 60 * 1000 then .refreshOnce else .noRefresh

/-- Number of refresh calls an `EnsureAction` performs. -/
def refreshCallCount : EnsureAction → Nat
  | .fail _ => 0
  | .refreshOnce => 1
  | .noRefresh => 0

/-! ## Catalog operations (getLikedSongs / getTrackDetails /
addTracksToPlaylist) -/

/-- Replace the first occurrence of `pat` in a character list by `repl`;
leave the list unchanged when `pat` does not occur. -/
def replaceFirstList (pat repl : List Char) : List Char → List Char
  | [] => []
  | c :: cs =>
    if pat.isPrefixOf (c :: cs) then repl ++ (c :: cs).drop pat.length
    else c :: replaceFirstList pat repl cs

/-- JavaScript `s.replace(pat, repl)`: replace the first occurrence of
`pat` in `s`, leave `s` unchanged when `pat` does not occur. -/
def replaceFirst (s pat repl : String) : String :=
  ⟨replaceFirstList pat.toList repl.toList s.toList⟩

/-- The fixed API origin stripped from absolute `next` cursors. -/
def spotifyApiOrigin : String := "https://api.spotify.com/v1"

/-- One element of a saved-tracks page's `items` array; the loop keeps only
`item.track`. -/
structure SavedTrackItem (α : Type) where
  track : α
  deriving Repr, DecidableEq

/-- One page of `GET /me/tracks`: the `items` array and the `next`
cursor. -/
structure SavedTracksPage (α : Type) where
  items : List (SavedTrackItem α)
  next : Option String
  deriving Repr

/-- The `while (nextUrl)` loop of `getLikedSongs`, with the pages served by
`api` (path → page). Returns the accumulated tracks and the list of
requested paths in order; `none` when the chain does not terminate within
`fuel` pages (the source would keep looping). The source computes
`nextUrl = data.next ? data.next.replace(origin, "") : null`, so an absent
or empty `next` ends the loop. -/
def getLikedSongsGo (α : Type) (api : String → SavedTracksPage α) :
    Nat → String → List α → List String → Option (List α × List String)
  | 0, _, _, _ => none
  | fuel + 1, url, acc, reqs =>
    let page := api url
    let acc' := acc ++ page.items.map (fun i => i.track)
    let reqs' := reqs ++ [url]
    match page.next with
    | some nxt =>
      if nxt = "" then some (acc', reqs')
      else getLikedSongsGo α api fuel (replaceFirst nxt spotifyApiOrigin "") acc' reqs'
    | none => some (acc', reqs')

/-- The fixed first page of the saved-tracks fetch. -/
def likedSongsFirstPage : String := "/me/tracks?limit=50"

/-- `getLikedSongs()`: start at `/me/tracks?limit=50` and follow `next`
cursors. -/
def getLikedSongs (α : Type) (api : String → SavedTracksPage α) (fuel : Nat) :
    Option (List α × List String) :=
  getLikedSongsGo α api fuel likedSongsFirstPage [] []

/-- The per-chunk request path of `getTrackDetails`:
`/tracks?ids=${batch.join(",")}`. -/
def trackDetailsUrl (batch : List String) : String :=
  "/tracks?ids=" ++ String.intercalate "," batch

/-- The per-batch loop of `getTrackDetails`: one request per batch in
order, concatenating `response.data.tracks`. Returns the flat track list
and the requested paths in order. -/
def getTrackDetailsGo (α : Type) (api : String → List α) :
    List (List String) → List α × List String
  | [] => ([], [])
  | b :: bs =>
    let url := trackDetailsUrl b
    let rest := getTrackDetailsGo α api bs
    (api url ++ rest.1, url :: rest.2)

/-- `getTrackDetails(trackIds)`: slice the ids into batches of 50 and fetch
each batch. -/
def getTrackDetails (α : Type) (api : String → List α) (trackIds : List String) :
    List α × List String :=
  getTrackDetailsGo α api (chunksOf 50 trackIds)

/-- The per-batch loop of `addTracksToPlaylist`: issue the retried POST for
each batch sequentially; the first failing batch aborts the loop and its
error propagates. Returns the overall outcome and the number of batch
requests issued. -/
def addTracksGo (E : Type) (post : List String → Except E Unit) :
    List (List String) → Except E Unit × Nat
  | [] => (.ok (), 0)
  | b :: bs =>
    match post b with
    | .ok _ =>
      let rest := addTracksGo E post bs
      (rest.1, rest.2 + 1)
    | .error e => (.error e, 1)

/-- `addTracksToPlaylist(playlistId, trackUris)`: slice the URIs into
batches of 100 and POST each batch in order. -/
def addTracksToPlaylist (E : Type) (post : List String → Except E Unit)
    (trackUris : List String) : Except E Unit × Nat :=
  addTracksGo E post (chunksOf 100 trackUris)

/-! ## generateAuthUrl -/

/-- The `spotify` section of the configuration. -/
structure SpotifyConfig where
  clientId : String
  clientSecret : String
  redirectUri : String
  deriving Repr, DecidableEq

/-- The fixed requested scopes. -/
def authScopes : String :=
  "user-library-read playlist-modify-public playlist-modify-private"

/-- The key/value pairs handed to `URLSearchParams` by `generateAuthUrl`,
in insertion order. `...(state && { state })` spreads nothing when `state`
is absent or empty (falsy). -/
def generateAuthUrlParams (cfg : SpotifyConfig) (state : Option String) :
    List (String × String) :=
  [("client_id", cfg.clientId), ("response_type", "code"),
   ("redirect_uri", cfg.redirectUri), ("scope", authScopes)]
  ++ (match state with
      | some s => if s = "" then [] else [("state", s)]
      | none => [])

/-- Upper-case hexadecimal digit. -/
def hexDigitChar (n : Nat) : Char :=
  if n < 10 then Char.ofNat (48 + n) else Char.ofNat (55 + n)

/-- `%XX` escape of one byte. -/
def percentEncodeByte (b : Nat) : String :=
  String.mk ['%', hexDigitChar (b / 16), hexDigitChar (b % 16)]

/-- Characters `URLSearchParams` serialization leaves unescaped. -/
def isFormUnreserved (c : Char) : Bool :=
  c.isAlphanum || c = '*' || c = '-' || c = '.' || c = '_'

/-- UTF-8 bytes of one character. -/
def utf8Bytes (c : Char) : List Nat :=
  let n := c.toNat
  if n < 0x80 then [n]
  else if n < 0x800 then [0xC0 + n / 64, 0x80 + n % 64]
  else if n < 0x10000 then
    [0xE0 + n / 4096, 0x80 + (n / 64) % 64, 0x80 + n % 64]
  else
    [0xF0 + n / 262144, 0x80 + (n / 4096) % 64, 0x80 + (n / 64) % 64,
     0x80 + n % 64]

/-- `application/x-www-form-urlencoded` serialization of one character. -/
def formEncodeChar (c : Char) : String :=
  if c = ' ' then "+"
  else if isFormUnreserved c then String.mk [c]
  else String.join ((utf8Bytes c).map percentEncodeByte)

/-- `application/x-www-form-urlencoded` serialization of a string. -/
def formEncode (s : String) : String :=
  String.join (s.toList.map formEncodeChar)

/-- One serialized `k=v` pair of `URLSearchParams.toString()`. -/
def encodePair (p : String × String) : String :=
  formEncode p.1 ++ "=" ++ formEncode p.2

/-- `URLSearchParams.toString()`: `k=v` pairs joined by `&`. -/
def encodeQuery : List (String × String) → String
  | [] => ""
  | [p] => encodePair p
  | p :: ps => encodePair p ++ "&" ++ encodeQuery ps

/-- `generateAuthUrl(state)`: pure construction from the configuration and
the optional state argument (the method reads only `this.config`). -/
def generateAuthUrl (cfg : SpotifyConfig) (state : Option String) : String :=
  "https://accounts.spotify.com/authorize?" ++ encodeQuery (generateAuthUrlParams cfg state)

/-- The method as it acts on the whole client: it reads only the
configuration and leaves the token state as it found it. -/
def generateAuthUrlMethod (cfg : SpotifyConfig) (tokens : Option AuthTokens)
    (state : Option String) : String × Option AuthTokens :=
  (generateAuthUrl cfg state, tokens)

/-! ## Concrete fixtures used by the scenario theorems -/

/-- The absolute `next` cursor the first mock page returns. -/
def likedSongsPage2Abs : String := "https://api.spotify.com/v1/me/tracks?offset=50&limit=50"

/-- The second page's path after the origin is stripped. -/
def likedSongsPage2Url : String := "/me/tracks?offset=50&limit=50"

/-- The 2-page mock server of the pagination claim: the first page holds two
items and an absolute `next` cursor, the second one item and `next: null`;
any other path returns an empty final page. -/
def mockTwoPageApi (α : Type) (a b c : α) : String → SavedTracksPage α := fun url =>
  if url = likedSongsFirstPage then
    { items := [⟨a⟩, ⟨b⟩], next := some likedSongsPage2Abs }
  else if url = likedSongsPage2Url then
    { items := [⟨c⟩], next := none }
  else
    { items := [], next := none }

/-- A stored snapshot that has a refresh token. -/
def sampleTokens : AuthTokens :=
  { access_token := "A", refresh_token := some "R", token_type := "Bearer",
    expires_in := 3600, scope := "x", expires_at := 0 }

/-- A stored snapshot whose refresh token is absent. -/
def sampleTokensNoRefresh : AuthTokens :=
  { access_token := "A", refresh_token := none, token_type := "Bearer",
    expires_in := 3600, scope := "x", expires_at := 0 }

/-! ## Helper lemmas about the retry loop -/

theorem retryGo_attempts_le (E A : Type) (op : Nat → Except E A) (p : RetryOptions) :
    ∀ fuel attempt, (retryGo E A op p attempt fuel).attempts ≤ fuel + 1 := by
  intro fuel
  induction fuel with
  | zero =>
    intro attempt
    cases h : op attempt <;> simp [retryGo, h]
  | succ f ih =>
    intro attempt
    cases h : op attempt with
    | ok a => simp [retryGo, h]
    | error e =>
      have := ih (attempt + 1)
      simp only [retryGo, h]
      omega

theorem retryGo_all_fail (E A : Type) (op : Nat → Except E A) (p : RetryOptions) :
    ∀ fuel attempt, (∀ j, j ≤ fuel → ∃ e, op (attempt + j) = Except.error e) →
      (retryGo E A op p attempt fuel).result = op (attempt + fuel)
      ∧ (retryGo E A op p attempt fuel).attempts = fuel + 1
      ∧ (retryGo E A op p attempt fuel).delays
          = (List.range fuel).map (fun j => retryDelay p (attempt + j)) := by
  intro fuel
  induction fuel with
  | zero =>
    intro attempt h
    obtain ⟨e, he⟩ := h 0 (Nat.le_refl 0)
    simp only [Nat.add_zero] at he
    simp [retryGo, he]
  | succ f ih =>
    intro attempt h
    obtain ⟨e, he⟩ := h 0 (Nat.zero_le _)
    simp only [Nat.add_zero] at he
    have hrest : ∀ j, j ≤ f → ∃ e, op (attempt + 1 + j) = Except.error e := by
      intro j hj
      obtain ⟨e', he'⟩ := h (j + 1) (by omega)
      exact ⟨e', by rwa [show attempt + (j + 1) = attempt + 1 + j by omega] at he'⟩
    obtain ⟨h1, h2, h3⟩ := ih (attempt + 1) hrest
    refine ⟨?_, ?_, ?_⟩
    · simp only [retryGo, he, h1]
      rw [show attempt + 1 + f = attempt + (f + 1) by omega]
    · simp [retryGo, he, h2]
    · simp only [retryGo, he, h3, List.range_succ_eq_map, List.map_cons, List.map_map]
      refine congrArg₂ _ (by simp) ?_
      refine List.map_congr_left fun j _ => ?_
      simp only [Function.comp_apply]
      refine congrArg _ (by omega)

theorem retryGo_first_success (E A : Type) (op : Nat → Except E A) (p : RetryOptions) :
    ∀ i fuel attempt a, i ≤ fuel →
      (∀ j, j < i → ∃ e, op (attempt + j) = Except.error e) →
      op (attempt + i) = Except.ok a →
      (retryGo E A op p attempt fuel).result = Except.ok a
      ∧ (retryGo E A op p attempt fuel).attempts = i + 1
      ∧ (retryGo E A op p attempt fuel).delays
          = (List.range i).map (fun j => retryDelay p (attempt + j)) := by
  intro i
  induction i with
  | zero =>
    intro fuel attempt a _ _ hok
    simp only [Nat.add_zero] at hok
    cases fuel <;> simp [retryGo, hok]
  | succ i ih =>
    intro fuel attempt a hle hfail hok
    obtain ⟨e, he⟩ := hfail 0 (by omega)
    simp only [Nat.add_zero] at he
    obtain ⟨f, rfl⟩ : ∃ f, fuel = f + 1 := ⟨fuel - 1, by omega⟩
    have hfail' : ∀ j, j < i → ∃ e, op (attempt + 1 + j) = Except.error e := by
      intro j hj
      obtain ⟨e', he'⟩ := hfail (j + 1) (by omega)
      exact ⟨e', by rwa [show attempt + (j + 1) = attempt + 1 + j by omega] at he'⟩
    have hok' : op (attempt + 1 + i) = Except.ok a := by
      rwa [show attempt + (i + 1) = attempt + 1 + i by omega] at hok
    obtain ⟨h1, h2, h3⟩ := ih f (attempt + 1) a (by omega) hfail' hok'
    refine ⟨by simp [retryGo, he, h1], by simp [retryGo, he, h2], ?_⟩
    simp only [retryGo, he, h3, List.range_succ_eq_map, List.map_cons, List.map_map]
    refine congrArg₂ _ (by simp) ?_
    refine List.map_congr_left fun j _ => ?_
    simp only [Function.comp_apply]
    refine congrArg _ (by omega)

/-! ## Claim theorems -/

/-- **C1**: `retryWithBackoff(operation, policy)` runs the operation at most
`maxRetries + 1` times; it returns the first successful result immediately
(after `i + 1` attempts when the zero-based attempt `i` is the first
success), before the retry after the failed attempt `j` it waits
`min(baseDelay * backoffFactor^j, maxDelay)` ms, the default policy's delay
sequence is exactly `[1000, 2000, 4000]` ms, and when the final allowed
attempt fails the last failure propagates unchanged, for every operation and
every failure kind. -/
theorem retryWithBackoff_spec (E A : Type) (op : Nat → Except E A) (p : RetryOptions) :
    (retryWithBackoff E A op p).attempts ≤ p.maxRetries + 1
    ∧ (∀ i a, i ≤ p.maxRetries →
        (∀ j, j < i → ∃ e, op j = Except.error e) → op i = Except.ok a →
        (retryWithBackoff E A op p).result = Except.ok a
        ∧ (retryWithBackoff E A op p).attempts = i + 1
        ∧ (retryWithBackoff E A op p).delays = (List.range i).map (retryDelay p))
    ∧ ((∀ j, j ≤ p.maxRetries → ∃ e, op j = Except.error e) →
        (retryWithBackoff E A op p).result = op p.maxRetries
        ∧ (retryWithBackoff E A op p).attempts = p.maxRetries + 1
        ∧ (retryWithBackoff E A op p).delays
            = (List.range p.maxRetries).map (retryDelay p))
    ∧ (∀ i, retryDelay p i = min (p.baseDelay * p.backoffFactor ^ i) p.maxDelay)
    ∧ (List.range defaultRetryOptions.maxRetries).map (retryDelay defaultRetryOptions)
        = [1000, 2000, 4000] := by
  refine ⟨retryGo_attempts_le E A op p p.maxRetries 0, ?_, ?_, fun i => rfl, by decide⟩
  · intro i a hle hfail hok
    have h := retryGo_first_success E A op p i p.maxRetries 0 a hle
      (by simpa using hfail) (by simpa using hok)
    simpa [retryWithBackoff] using h
  · intro h
    have h' := retryGo_all_fail E A op p p.maxRetries 0 (by simpa using h)
    simpa [retryWithBackoff] using h'

/-- Witness for C1: the default policy with an always-failing operation makes
exactly 4 attempts, waits `[1000, 2000, 4000]` ms, and surfaces the last
failure. -/
theorem retryWithBackoff_spec_witness :
    (retryWithBackoff String Nat (fun _ => Except.error "boom") defaultRetryOptions).result
        = Except.error "boom"
    ∧ (retryWithBackoff String Nat (fun _ => Except.error "boom") defaultRetryOptions).attempts
        = 4
    ∧ (retryWithBackoff String Nat (fun _ => Except.error "boom") defaultRetryOptions).delays
        = [1000, 2000, 4000] := by
  have h := (retryWithBackoff_spec String Nat (fun _ => Except.error "boom")
      defaultRetryOptions).2.2.1 (fun j _ => ⟨"boom", rfl⟩)
  exact ⟨h.1, h.2.1, by rw [h.2.2]; decide⟩

/-- **C2**: the classifier maps every failed transport outcome to exactly one
typed failure: status 401 to `AuthenticationError`; status 429 to
`RateLimitError` carrying the integer-parsed `retry-after` header when
present (and no hint when absent); any other non-2xx status to
`SpotifyAPIError` carrying the server-provided message when present (else
the generic message) together with the status and raw body; and a request
that received no response to `NetworkError` wrapping the underlying
cause. -/
theorem classifyError_spec :
    (∀ (data : ResponseBody) (ra : Option String),
       classifyError (.response 401 data ra)
         = .authenticationError "Invalid or expired token")
    ∧ (∀ data : ResponseBody,
       classifyError (.response 429 data none)
         = .rateLimitError "Rate limit exceeded" none)
    ∧ (∀ (data : ResponseBody) (s : String) (n : Int), s ≠ "" → jsParseInt s = some n →
       classifyError (.response 429 data (some s))
         = .rateLimitError "Rate limit exceeded" (some n))
    ∧ (∀ (status : Nat) (data : ResponseBody) (ra : Option String),
         ¬(200 ≤ status ∧ status < 300) → status ≠ 401 → status ≠ 429 →
       (∀ m, data.errorMessage = some m → m ≠ "" →
          classifyError (.response status data ra) = .spotifyAPIError m status data)
       ∧ (data.errorMessage = none →
          classifyError (.response status data ra)
            = .spotifyAPIError "Spotify API error" status data))
    ∧ (∀ cause : String,
       classifyError (.request cause) = .networkError "Network error" cause) := by
  refine ⟨fun data ra => rfl, fun data => rfl, ?_, ?_, fun cause => rfl⟩
  · intro data s n hs hparse
    simp [classifyError, hs, hparse]
  · intro status data ra _ h401 h429
    refine ⟨?_, ?_⟩
    · intro m hm hne
      simp [classifyError, h401, h429, jsOrString, hm, hne]
    · intro hm
      simp [classifyError, h401, h429, jsOrString, hm]

/-- Witness for C2: a 429 response with header `retry-after: 5` is
classified as rate-limited with hint 5, and a 503 response with no message
in the body is classified as a remote error with the generic message. -/
theorem classifyError_spec_witness :
    classifyError (.response 429 ⟨none⟩ (some "5"))
      = .rateLimitError "Rate limit exceeded" (some 5)
    ∧ classifyError (.response 503 ⟨none⟩ none)
      = .spotifyAPIError "Spotify API error" 503 ⟨none⟩ := by
  refine ⟨classifyError_spec.2.2.1 ⟨none⟩ "5" 5 (by decide) (by decide), ?_⟩
  exact (classifyError_spec.2.2.2.1 503 ⟨none⟩ none (by omega) (by omega) (by omega)).2 rfl

/-- **C3**: `ensureValidToken()` raises
`AuthenticationError("Not authenticated")` when no snapshot is stored; with
a stored snapshot it performs exactly one refresh call when the expiry is
`≤ now + 5` minutes (inclusive) and zero refresh calls when the expiry is
beyond that horizon. -/
theorem ensureValidToken_spec (tokens : Option AuthTokens) (now : Int) :
    (tokens = none →
       ensureValidToken tokens now = .fail (.authenticationError "Not authenticated"))
    ∧ (∀ t, tokens = some t →
        (t.expires_at ≤ now + 5 * 60 * 1000 →
           ensureValidToken tokens now = .refreshOnce
           ∧ refreshCallCount (ensureValidToken tokens now) = 1)
        ∧ (now + 5 * 60 * 1000 < t.expires_at →
           ensureValidToken tokens now = .noRefresh
           ∧ refreshCallCount (ensureValidToken tokens now) = 0)) := by
  refine ⟨fun h => by rw [h]; rfl, ?_⟩
  intro t ht
  subst ht
  constructor
  · intro hexp
    have : ensureValidToken (some t) now = .refreshOnce := by
      simp only [ensureValidToken]
      rw [if_pos (by omega)]
    exact ⟨this, by rw [this]; rfl⟩
  · intro hexp
    have : ensureValidToken (some t) now = .noRefresh := by
      simp only [ensureValidToken]
      rw [if_neg (by omega)]
    exact ⟨this, by rw [this]; rfl⟩

/-- Witness for C3: with a snapshot expiring exactly at `now + 5` minutes
one refresh happens, and with a snapshot expiring a millisecond later none
does. -/
theorem ensureValidToken_spec_witness :
    refreshCallCount (ensureValidToken
      (some { access_token := "A", refresh_token := some "R", token_type := "Bearer",
              expires_in := 3600, scope := "x", expires_at := 300000 }) 0) = 1
    ∧ refreshCallCount (ensureValidToken
      (some { access_token := "A", refresh_token := some "R", token_type := "Bearer",
              expires_in := 3600, scope := "x", expires_at := 300001 }) 0) = 0
    ∧ ensureValidToken none 0 = .fail (.authenticationError "Not authenticated") := by
  refine ⟨?_, ?_, (ensureValidToken_spec none 0).1 rfl⟩
  · exact (((ensureValidToken_spec (some _) 0).2 _ rfl).1 (by norm_num)).2
  · exact (((ensureValidToken_spec (some _) 0).2 _ rfl).2 (by norm_num)).2

/-! ### C4: paginated liked-songs fetch -/

theorem getLikedSongsGo_requests (α : Type) (api : String → SavedTracksPage α) :
    ∀ fuel url acc reqs res,
      getLikedSongsGo α api fuel url acc reqs = some res →
      ∃ rest, res.2 = reqs ++ url :: rest := by
  intro fuel
  induction fuel with
  | zero => intro url acc reqs res h; simp [getLikedSongsGo] at h
  | succ f ih =>
    intro url acc reqs res h
    simp only [getLikedSongsGo] at h
    split at h
    · split at h
      · refine ⟨[], ?_⟩
        simp only [Option.some.injEq] at h
        subst h
        simp
      · obtain ⟨rest, hrest⟩ := ih _ _ _ _ h
        exact ⟨_ :: rest, by simpa using hrest⟩
    · refine ⟨[], ?_⟩
      simp only [Option.some.injEq] at h
      subst h
      simp

/-- **C4**: `getLikedSongs()` starts at the fixed first page
`/me/tracks?limit=50` and follows `next` cursors with the API origin
stripped, one request per page, accumulating tracks in page-then-intra-page
order and stopping when `next` is null: on the 2-page mock it returns
exactly the 3 items in order and requests exactly the 2 page paths; on any
server, a terminating run's first request is the fixed first page. -/
theorem getLikedSongs_spec (α : Type) (a b c : α) :
    (∀ n, getLikedSongs α (mockTwoPageApi α a b c) (n + 2)
        = some ([a, b, c], [likedSongsFirstPage, likedSongsPage2Url]))
    ∧ (∀ (api : String → SavedTracksPage α) fuel songs reqs,
        getLikedSongs α api fuel = some (songs, reqs) →
        reqs.head? = some likedSongsFirstPage) := by
  constructor
  · intro n
    have hstrip : replaceFirst "https://api.spotify.com/v1/me/tracks?offset=50&limit=50"
        spotifyApiOrigin "" = "/me/tracks?offset=50&limit=50" := by
      decide
    simp [getLikedSongs, getLikedSongsGo, mockTwoPageApi, hstrip,
      likedSongsFirstPage, likedSongsPage2Url, likedSongsPage2Abs]
  · intro api fuel songs reqs h
    obtain ⟨rest, hrest⟩ := getLikedSongsGo_requests α api fuel likedSongsFirstPage [] [] _ h
    simp at hrest
    simp [hrest]

/-- Witness for C4 (the mock run itself, at concrete items and minimal
fuel): 3 items in order from 2 requests. -/
theorem getLikedSongs_spec_witness :
    getLikedSongs Nat (mockTwoPageApi Nat 10 11 12) 2
      = some ([10, 11, 12], [likedSongsFirstPage, likedSongsPage2Url]) :=
  (getLikedSongs_spec Nat 10 11 12).1 0

/-! ### Chunking lemmas shared by C5 and C6 -/

theorem chunksOf_succ_length (k : Nat) :
    ∀ (n : Nat) (xs : List α), xs.length = n →
      (chunksOf (k + 1) xs).length = (xs.length + k) / (k + 1) := by
  intro n
  induction n using Nat.strong_induction_on with
  | _ n ih =>
    intro xs hn
    cases xs with
    | nil =>
      simp [chunksOf, Nat.div_eq_of_lt (by omega : k < k + 1)]
    | cons x xs' =>
      subst hn
      simp only [chunksOf, Nat.add_sub_cancel, List.length_cons]
      have hlen : (xs'.drop k).length = xs'.length - k := by simp
      have hrec := ih (xs'.drop k).length (by simp; omega) (xs'.drop k) rfl
      rw [hrec, hlen]
      rw [show xs'.length + 1 + k = xs'.length + (k + 1) by omega,
        Nat.add_div_right _ (by omega)]
      by_cases hk : k ≤ xs'.length
      · rw [show xs'.length - k + k = xs'.length by omega]
      · rw [show xs'.length - k + k = k by omega,
          Nat.div_eq_of_lt (by omega : k < k + 1),
          Nat.div_eq_of_lt (by omega : xs'.length < k + 1)]

theorem chunksOf_succ_le (k : Nat) :
    ∀ (n : Nat) (xs : List α), xs.length = n →
      ∀ b ∈ chunksOf (k + 1) xs, b.length ≤ k + 1 := by
  intro n
  induction n using Nat.strong_induction_on with
  | _ n ih =>
    intro xs hn b hb
    cases xs with
    | nil => simp [chunksOf] at hb
    | cons x xs' =>
      subst hn
      simp only [chunksOf, Nat.add_sub_cancel, List.mem_cons] at hb
      rcases hb with hb | hb
      · subst hb
        exact List.length_take_le _ _
      · exact ih (xs'.drop k).length (by simp; omega) (xs'.drop k) rfl b hb

theorem chunksOf_succ_flatten (k : Nat) :
    ∀ (n : Nat) (xs : List α), xs.length = n →
      (chunksOf (k + 1) xs).flatten = xs := by
  intro n
  induction n using Nat.strong_induction_on with
  | _ n ih =>
    intro xs hn
    cases xs with
    | nil => simp [chunksOf]
    | cons x xs' =>
      subst hn
      simp only [chunksOf, Nat.add_sub_cancel, List.flatten_cons]
      rw [ih (xs'.drop k).length (by simp; omega) (xs'.drop k) rfl]
      rw [List.take_succ_cons, List.cons_append, List.take_append_drop]

theorem getTrackDetailsGo_eq (α : Type) (api : String → List α) :
    ∀ bs : List (List String),
      getTrackDetailsGo α api bs
        = ((bs.map (fun b => api (trackDetailsUrl b))).flatten, bs.map trackDetailsUrl) := by
  intro bs
  induction bs with
  | nil => rfl
  | cons b bs ih => simp [getTrackDetailsGo, ih]

/-- **C5**: `getTrackDetails(trackIds)` partitions the ids into exactly
`⌈L/50⌉` chunks of at most 50 ids each, preserving the input order across
the partition, issues one retried request per chunk in chunk order, and
returns the concatenation of the per-chunk results in chunk order. -/
theorem getTrackDetails_spec (α : Type) (api : String → List α) (trackIds : List String) :
    (chunksOf 50 trackIds).length = (trackIds.length + 49) / 50
    ∧ (∀ b ∈ chunksOf 50 trackIds, b.length ≤ 50)
    ∧ (chunksOf 50 trackIds).flatten = trackIds
    ∧ (getTrackDetails α api trackIds).2 = (chunksOf 50 trackIds).map trackDetailsUrl
    ∧ (getTrackDetails α api trackIds).1
        = ((chunksOf 50 trackIds).map (fun b => api (trackDetailsUrl b))).flatten := by
  refine ⟨?_, ?_, ?_, ?_, ?_⟩
  · have h := chunksOf_succ_length (α := String) 49 trackIds.length trackIds rfl
    simpa using h
  · have h := chunksOf_succ_le (α := String) 49 trackIds.length trackIds rfl
    simpa using h
  · have h := chunksOf_succ_flatten (α := String) 49 trackIds.length trackIds rfl
    simpa using h
  · rw [getTrackDetails, getTrackDetailsGo_eq]
  · rw [getTrackDetails, getTrackDetailsGo_eq]

/-- Witness for C5: two ids form a single chunk of length 2 ≤ 50 whose
flattening is the input list. -/
theorem getTrackDetails_spec_witness :
    (["t1", "t2"] : List String).length ≤ 50
    ∧ (chunksOf 50 (["t1", "t2"] : List String)).flatten = ["t1", "t2"] := by
  have hmem : (["t1", "t2"] : List String) ∈ chunksOf 50 ["t1", "t2"] := by
    simp [chunksOf]
  exact ⟨(getTrackDetails_spec (List String) (fun _ => []) ["t1", "t2"]).2.1
      ["t1", "t2"] hmem,
    (getTrackDetails_spec (List String) (fun _ => []) ["t1", "t2"]).2.2.1⟩

/-! ### C6: batched track insertion -/

theorem addTracksGo_all_ok (E : Type) (post : List String → Except E Unit) :
    ∀ bs : List (List String), (∀ b ∈ bs, post b = Except.ok ()) →
      addTracksGo E post bs = (Except.ok (), bs.length) := by
  intro bs
  induction bs with
  | nil => intro _; rfl
  | cons b bs ih =>
    intro h
    have hb := h b (by simp)
    have hrest := ih (fun b' hb' => h b' (by simp [hb']))
    simp [addTracksGo, hb, hrest]

theorem addTracksGo_ok_iff (E : Type) (post : List String → Except E Unit) :
    ∀ bs : List (List String),
      (addTracksGo E post bs).1 = Except.ok () ↔ ∀ b ∈ bs, post b = Except.ok () := by
  intro bs
  induction bs with
  | nil => simp [addTracksGo]
  | cons b bs ih =>
    cases hb : post b with
    | ok u =>
      cases u
      simp [addTracksGo, hb, ih]
    | error e =>
      simp [addTracksGo, hb]

theorem addTracksGo_fail_at (E : Type) (post : List String → Except E Unit) :
    ∀ bs : List (List String), ∀ (k : Nat) (bk : List String) (e : E),
      bs[k]? = some bk →
      (∀ j b, j < k → bs[j]? = some b → post b = Except.ok ()) →
      post bk = Except.error e →
      addTracksGo E post bs = (Except.error e, k + 1) := by
  intro bs
  induction bs with
  | nil => intro k bk e hk _ _; simp at hk
  | cons b bs ih =>
    intro k bk e hk hprev hfail
    cases k with
    | zero =>
      simp only [List.getElem?_cons_zero, Option.some.injEq] at hk
      subst hk
      simp [addTracksGo, hfail]
    | succ k' =>
      have hb : post b = Except.ok () := hprev 0 b (by omega) (by simp)
      have hrest := ih k' bk e (by simpa using hk)
        (fun j b' hj hjb => hprev (j + 1) b' (by omega) (by simpa using hjb)) hfail
      simp [addTracksGo, hb, hrest]

/-- **C6**: `addTracksToPlaylist(playlistId, trackUris)` partitions the URIs
into exactly `⌈L/100⌉` chunks of at most 100 URIs each and issues one chunk
request per chunk sequentially in index order; the whole operation succeeds
exactly when every chunk succeeds, and when the zero-based chunk `k` is the
first to fail, exactly `k + 1` requests were issued (chunks `k + 1` onward
are never sent) and that failure propagates. -/
theorem addTracksToPlaylist_spec (E : Type) (post : List String → Except E Unit)
    (trackUris : List String) :
    (chunksOf 100 trackUris).length = (trackUris.length + 99) / 100
    ∧ (∀ b ∈ chunksOf 100 trackUris, b.length ≤ 100)
    ∧ (chunksOf 100 trackUris).flatten = trackUris
    ∧ ((∀ b ∈ chunksOf 100 trackUris, post b = Except.ok ()) →
        addTracksToPlaylist E post trackUris
          = (Except.ok (), (chunksOf 100 trackUris).length))
    ∧ ((addTracksToPlaylist E post trackUris).1 = Except.ok ()
        ↔ ∀ b ∈ chunksOf 100 trackUris, post b = Except.ok ())
    ∧ (∀ (k : Nat) (bk : List String) (e : E),
        (chunksOf 100 trackUris)[k]? = some bk →
        (∀ j b, j < k → (chunksOf 100 trackUris)[j]? = some b → post b = Except.ok ()) →
        post bk = Except.error e →
        addTracksToPlaylist E post trackUris = (Except.error e, k + 1)) := by
  refine ⟨?_, ?_, ?_, ?_, ?_, ?_⟩
  · have h := chunksOf_succ_length (α := String) 99 trackUris.length trackUris rfl
    simpa using h
  · have h := chunksOf_succ_le (α := String) 99 trackUris.length trackUris rfl
    simpa using h
  · have h := chunksOf_succ_flatten (α := String) 99 trackUris.length trackUris rfl
    simpa using h
  · intro h
    exact addTracksGo_all_ok E post _ h
  · exact addTracksGo_ok_iff E post _
  · intro k bk e hk hprev hfail
    exact addTracksGo_fail_at E post _ k bk e hk hprev hfail

/-- Witness for C6: with two URIs (one chunk) and a failing request, the
operation issues exactly one request and propagates the failure. -/
theorem addTracksToPlaylist_spec_witness :
    addTracksToPlaylist String (fun _ => Except.error "boom") ["u1", "u2"]
      = (Except.error "boom", 1) := by
  have hk : (chunksOf 100 (["u1", "u2"] : List String))[0]? = some ["u1", "u2"] := by
    simp [chunksOf]
  exact (addTracksToPlaylist_spec String (fun _ => Except.error "boom")
      ["u1", "u2"]).2.2.2.2.2 0 ["u1", "u2"] "boom" hk
    (fun j b hj _ => absurd hj (by omega)) rfl

/-! ### C7, C8, C9: the token lifecycle -/

/-- **C7**: on a successful token-endpoint response,
`exchangeCodeForToken(code)` stores a snapshot whose `expires_at` is
`now + expires_in` seconds, makes `isAuthenticated()` true, and returns that
snapshot; on a transport failure it raises `AuthenticationError` carrying
the server-provided `error_description` when available (else the generic
message) and leaves the stored token state unchanged. -/
theorem exchangeCodeForToken_spec (tokens : Option AuthTokens) (now : Int) :
    (∀ td : TokenResponse, ∃ snap : AuthTokens,
        exchangeCodeForToken tokens now (.ok td)
          = { result := .ok snap, tokens := some snap, networkCalls := 1 }
        ∧ snap.access_token = td.access_token
        ∧ snap.refresh_token = some td.refresh_token
        ∧ snap.token_type = td.token_type
        ∧ snap.expires_in = td.expires_in
        ∧ snap.scope = td.scope
        ∧ snap.expires_at = now + td.expires_in * 1000
        ∧ isAuthenticated (exchangeCodeForToken tokens now (.ok td)).tokens = true)
    ∧ (∀ d : Option String,
        (exchangeCodeForToken tokens now (.error (.axiosError d))).tokens = tokens
        ∧ (∀ m, d = some m → m ≠ "" →
            (exchangeCodeForToken tokens now (.error (.axiosError d))).result
              = .error (.authenticationError m))
        ∧ (d = none →
            (exchangeCodeForToken tokens now (.error (.axiosError d))).result
              = .error (.authenticationError "Token exchange failed"))) := by
  constructor
  · intro td
    exact ⟨_, rfl, rfl, rfl, rfl, rfl, rfl, rfl, rfl⟩
  · intro d
    refine ⟨rfl, ?_, ?_⟩
    · intro m hm hne
      subst hm
      simp [exchangeCodeForToken, jsOrString, hne]
    · intro hd
      subst hd
      rfl

/-- Witness for C7: a failed exchange with description "bad code" raises
that description and leaves the (absent) token state unchanged. -/
theorem exchangeCodeForToken_spec_witness :
    (exchangeCodeForToken none 0 (.error (.axiosError (some "bad code")))).result
      = .error (.authenticationError "bad code")
    ∧ (exchangeCodeForToken none 0 (.error (.axiosError (some "bad code")))).tokens
      = none :=
  ⟨((exchangeCodeForToken_spec none 0).2 (some "bad code")).2.1 "bad code" rfl
      (by decide),
   ((exchangeCodeForToken_spec none 0).2 (some "bad code")).1⟩

/-- **C8**: `refreshAccessToken()` with no stored refresh token (no snapshot
at all, or a snapshot whose refresh token is absent or empty) raises
`AuthenticationError("No refresh token available")` immediately, issuing no
network call and leaving the stored token state unchanged. -/
theorem refreshAccessToken_noToken_spec (tokens : Option AuthTokens) (now : Int)
    (post : Except TokenCallFailure TokenRefreshResponse)
    (h : hasRefreshToken tokens = false) :
    refreshAccessToken tokens now post
      = { result := .error (.authenticationError "No refresh token available")
          tokens := tokens, networkCalls := 0 } := by
  cases tokens with
  | none => rfl
  | some t =>
    simp only [hasRefreshToken] at h
    simp [refreshAccessToken, h]

/-- Witness for C8: a snapshot without a refresh token makes `refresh` fail
with zero network calls and an unchanged snapshot. -/
theorem refreshAccessToken_noToken_spec_witness :
    refreshAccessToken (some sampleTokensNoRefresh) 0 (.ok ⟨"B", "Bearer", 3600, "x"⟩)
      = { result := .error (.authenticationError "No refresh token available")
          tokens := some sampleTokensNoRefresh
          networkCalls := 0 } :=
  refreshAccessToken_noToken_spec (some sampleTokensNoRefresh) 0
    (.ok ⟨"B", "Bearer", 3600, "x"⟩) (by decide)

/-- **C9**: a successful `refreshAccessToken()` replaces only `access_token`
and `expires_at` in the stored snapshot (the latter becoming `now` plus the
returned `expires_in` seconds) and returns the new access token; the refresh
token, `token_type`, `scope` and stored `expires_in` are untouched. -/
theorem refreshAccessToken_success_spec (t : AuthTokens) (now : Int)
    (td : TokenRefreshResponse) (h : truthyString t.refresh_token = true) :
    ∃ updated : AuthTokens,
      refreshAccessToken (some t) now (.ok td)
        = { result := .ok td.access_token, tokens := some updated, networkCalls := 1 }
      ∧ updated.access_token = td.access_token
      ∧ updated.expires_at = now + td.expires_in * 1000
      ∧ updated.refresh_token = t.refresh_token
      ∧ updated.token_type = t.token_type
      ∧ updated.scope = t.scope
      ∧ updated.expires_in = t.expires_in := by
  refine
    ⟨{ t with
        access_token := td.access_token
        expires_at := now + td.expires_in * 1000 },
      ?_, rfl, rfl, rfl, rfl, rfl, rfl⟩
  simp [refreshAccessToken, h]

/-- Witness for C9: refreshing a concrete snapshot replaces the access token
and expiry and keeps the refresh token, type, scope and stored lifetime. -/
theorem refreshAccessToken_success_spec_witness :
    (refreshAccessToken (some sampleTokens) 0 (.ok ⟨"B", "Bearer", 7200, "x2"⟩)).result
      = .ok "B"
    ∧ ((refreshAccessToken (some sampleTokens) 0
        (.ok ⟨"B", "Bearer", 7200, "x2"⟩)).tokens.map (fun u => u.refresh_token))
      = some (some "R")
    ∧ ((refreshAccessToken (some sampleTokens) 0
        (.ok ⟨"B", "Bearer", 7200, "x2"⟩)).tokens.map (fun u => u.expires_at))
      = some 7200000 := by
  obtain ⟨updated, heq, h1, h2, h3, h4, h5, h6⟩ :=
    refreshAccessToken_success_spec sampleTokens 0 ⟨"B", "Bearer", 7200, "x2"⟩ (by decide)
  refine ⟨by rw [heq], ?_, ?_⟩
  · rw [heq]
    simp [h3, sampleTokens]
  · rw [heq]
    simp [h2]

/-! ### C10: authorization URL construction -/

theorem encodeQuery_append_single (ps : List (String × String)) (p : String × String)
    (h : ps ≠ []) :
    encodeQuery (ps ++ [p]) = encodeQuery ps ++ "&" ++ encodePair p := by
  induction ps with
  | nil => exact absurd rfl h
  | cons q qs ih =>
    cases qs with
    | nil => rfl
    | cons q' qs' =>
      have hne : q' :: qs' ≠ [] := by simp
      simp only [List.cons_append]
      rw [show encodeQuery (q :: q' :: (qs' ++ [p]))
          = encodePair q ++ "&" ++ encodeQuery (q' :: (qs' ++ [p])) from rfl]
      rw [show (q' : String × String) :: (qs' ++ [p]) = (q' :: qs') ++ [p] from rfl,
        ih hne]
      rw [show encodeQuery (q :: q' :: qs')
          = encodePair q ++ "&" ++ encodeQuery (q' :: qs') from rfl]
      simp [String.append_assoc]

/-- **C10**: `generateAuthUrl(state)` is a pure function of the
configuration and the state argument and leaves the client's token state
untouched; the produced URL carries a `state` query parameter exactly when
the argument is a non-empty string, and the empty string produces the very
URL produced when the argument is absent. -/
theorem generateAuthUrl_spec (cfg : SpotifyConfig) (tokens : Option AuthTokens) :
    (∀ (st : Option String) (s : String),
        (("state", s) ∈ generateAuthUrlParams cfg st) ↔ (st = some s ∧ s ≠ ""))
    ∧ generateAuthUrl cfg (some "") = generateAuthUrl cfg none
    ∧ (∀ s : String, s ≠ "" →
        generateAuthUrl cfg (some s)
          = generateAuthUrl cfg none ++ "&" ++ ("state=" ++ formEncode s))
    ∧ (generateAuthUrlMethod cfg tokens (some "x")).2 = tokens
    ∧ (∀ st, (generateAuthUrlMethod cfg tokens st).1 = generateAuthUrl cfg st) := by
  refine ⟨?_, rfl, ?_, rfl, fun st => rfl⟩
  · intro st s
    cases st with
    | none => simp [generateAuthUrlParams]
    | some s' =>
      by_cases hs' : s' = ""
      · subst hs'
        constructor
        · intro hmem
          exfalso
          simp [generateAuthUrlParams] at hmem
        · rintro ⟨heq, hne⟩
          injection heq with h
          exact absurd h.symm hne
      · simp [generateAuthUrlParams, hs']
        constructor
        · rintro rfl
          exact ⟨rfl, hs'⟩
        · rintro ⟨rfl, _⟩
          rfl
  · intro s hs
    have hparams : generateAuthUrlParams cfg (some s)
        = generateAuthUrlParams cfg none ++ [("state", s)] := by
      simp [generateAuthUrlParams, hs]
    have hbase : generateAuthUrlParams cfg none ≠ [] := by
      simp [generateAuthUrlParams]
    rw [generateAuthUrl, hparams, encodeQuery_append_single _ _ hbase, generateAuthUrl,
      show ("state=" : String) = "state" ++ "=" from by decide,
      show encodePair ("state", s) = "state" ++ "=" ++ formEncode s from by
        rw [encodePair, show formEncode "state" = "state" from by decide]]
    simp [String.append_assoc]

/-- Witness for C10: with a concrete configuration, the state parameter is
present for the argument "st" and the URL is the state-less URL with
`&state=st` appended. -/
theorem generateAuthUrl_spec_witness :
    generateAuthUrl ⟨"id", "sec", "http://cb"⟩ (some "st")
      = generateAuthUrl ⟨"id", "sec", "http://cb"⟩ none ++ "&" ++ ("state=" ++ formEncode "st")
    ∧ (("state", "st") ∈ generateAuthUrlParams ⟨"id", "sec", "http://cb"⟩ (some "st")) :=
  ⟨(generateAuthUrl_spec ⟨"id", "sec", "http://cb"⟩ none).2.2.1 "st" (by decide),
   ((generateAuthUrl_spec ⟨"id", "sec", "http://cb"⟩ none).1 (some "st") "st").mpr
     ⟨rfl, by decide⟩⟩

end SpotifyAgent
